import Mathlib

/-!
Shallow embedding of the rustatouille status-page core, checked against its
natural-language specification.

The embedding covers:
  - the closed `Severity` and `Status` enumerations and their storage /
    display tables (`src/db/models/interventions.rs`);
  - row decoding (`Intervention::from_row`);
  - the renderer `regenerate_index` (`src/regenerate.rs`), with the store,
    the template engine and the file system given as explicit oracles;
  - the regeneration coordinator loop `pages` (`src/regenerate.rs`), as a
    trace semantics over the events its two await points can observe;
  - the admin handler `create_intervention` and the hot-reload watcher
    callback (`src/controllers/admin.rs`, `src/main.rs`), for the
    single-writer and freshly-created-intervention claims.

Machine integers (`i64`) are modelled as `Int`; fallible Rust calls return
`Except`; a Rust panic is modelled as the distinguished failure
`Fail.panic`, kept separate from an ordinary returned error `Fail.err`.
-/

namespace Rustatouille

/-- Outcome of a fallible Rust computation: an error value actually returned
(`err`, e.g. an `anyhow::Error` propagated with `?`) versus a panic
(`panic`, e.g. `Option::unwrap` on `None` or `Result::unwrap` on `Err`). -/
inductive Fail where
  | err (msg : String)
  | panic (msg : String)
deriving DecidableEq, Repr

/-- True exactly when the computation returned an ordinary error (not a panic). -/
def isErrR {α : Type} : Except Fail α → Bool
  | .error (.err _) => true
  | _ => false

/-- True exactly when the computation panicked. -/
def isPanicR {α : Type} : Except Fail α → Bool
  | .error (.panic _) => true
  | _ => false

/-- True exactly when an `Except String` computation (a plain fallible call)
returned an error. -/
def isErrS {α : Type} : Except String α → Bool
  | .error _ => true
  | .ok _ => false

/-- Lift a fallible call whose error is propagated with `?` (no panic). -/
def tryGet {α : Type} : Except String α → Except Fail α
  | .ok a => .ok a
  | .error e => .error (.err e)

/-- Rust `Option::unwrap()`: panics on `None` with the given message. -/
def unwrapO {α : Type} (o : Option α) (msg : String) : Except Fail α :=
  match o with
  | some a => .ok a
  | none => .error (.panic msg)

/-- Rust `Result::unwrap()`: panics on `Err`, with the error's message. -/
def unwrapE {α : Type} : Except String α → Except Fail α
  | .ok a => .ok a
  | .error e => .error (.panic e)

/-- Severity of an intervention (`src/db/models/interventions.rs`). -/
inductive Severity where
  | PartialOutage
  | FullOutage
  | PerformanceIssue
deriving DecidableEq, BEq, Repr

/-- CSS class token for a severity (`Severity::to_css_class`). -/
def Severity.to_css_class : Severity → String
  | .PartialOutage => "partial-outage"
  | .FullOutage => "full-outage"
  | .PerformanceIssue => "performance-issue"

/-- Human label for a severity (`Severity::label`). -/
def Severity.label : Severity → String
  | .PartialOutage => "Partial outage"
  | .FullOutage => "Full outage"
  | .PerformanceIssue => "Performance issue"

/-- Storage encoding of a severity (`Severity::to_db_str`). -/
def Severity.to_db_str : Severity → String
  | .PartialOutage => "partial_outage"
  | .FullOutage => "full_outage"
  | .PerformanceIssue => "performance_issue"

/-- Storage decoding of a severity (`Severity::from_db_str`); unknown
strings yield an error. -/
def Severity.from_db_str (s : String) : Except String Severity :=
  match s with
  | "partial_outage" => .ok .PartialOutage
  | "full_outage" => .ok .FullOutage
  | "performance_issue" => .ok .PerformanceIssue
  | _ => .error ("unexpected value for severity: " ++ s)

/-- Lifecycle status of an intervention (`src/db/models/interventions.rs`). -/
inductive Status where
  | Planned
  | Ongoing
  | UnderSurveillance
  | Identified
  | Resolved
deriving DecidableEq, BEq, Repr

/-- Human label for a status (`Status::label`). -/
def Status.label : Status → String
  | .Planned => "Planned"
  | .Ongoing => "Ongoing"
  | .UnderSurveillance => "Under surveillance"
  | .Identified => "Identified"
  | .Resolved => "Resolved"

/-- Storage encoding of a status (`Status::to_db_str`). -/
def Status.to_db_str : Status → String
  | .Planned => "planned"
  | .Ongoing => "ongoing"
  | .UnderSurveillance => "under_surveillance"
  | .Identified => "identified"
  | .Resolved => "resolved"

/-- Storage decoding of a status (`Status::from_db_str`); unknown strings
yield an error. -/
def Status.from_db_str (s : String) : Except String Status :=
  match s with
  | "planned" => .ok .Planned
  | "ongoing" => .ok .Ongoing
  | "under_surveillance" => .ok .UnderSurveillance
  | "identified" => .ok .Identified
  | "resolved" => .ok .Resolved
  | _ => .error ("unexpected value for status: " ++ s)

/-- A monitored service (`src/db/models/services.rs`). `id` is `None`
before insertion, `Some` for rows read back from the store. -/
structure Service where
  id : Option Int
  name : String
  url : String
deriving DecidableEq, Repr

/-- An intervention record (`src/db/models/interventions.rs`).
`NaiveDateTime` values are modelled by their Unix timestamp in seconds. -/
structure Intervention where
  id : Option Int
  start_date : Int
  estimated_duration : Option Int
  end_date : Option Int
  status : Status
  severity : Severity
  is_planned : Bool
  title : String
  description : Option String
deriving DecidableEq, Repr

/-- Status-based classification `Intervention::is_ongoing`
(`src/db/models/interventions.rs` line 238). -/
def is_ongoing (i : Intervention) : Bool :=
  i.status == Status.Ongoing

/-- Status-based classification `Intervention::is_planned`
(`src/db/models/interventions.rs` line 241); named with a trailing
marker here because the Lean structure field `is_planned` already takes
the method's name. -/
def is_planned_status (i : Intervention) : Bool :=
  i.status == Status.Planned

/-- Modelled external collaborator (chrono):
`NaiveDateTime::from_timestamp_opt(secs, 0)`. chrono only rejects
timestamps hundreds of millennia away from the epoch; that out-of-range
rejection is irrelevant to the claims and is not modelled, so the
conversion is total here. -/
def from_timestamp_opt (secs : Int) : Option Int :=
  some secs

/-- One raw store row as seen by `Intervention::from_row`: each column
access (`row.try_get(..)`) may fail with a database error. -/
structure Row where
  id : Except String Int
  start_date : Except String Int
  estimated_duration : Except String (Option Int)
  end_date : Except String (Option Int)
  status : Except String String
  severity : Except String String
  is_planned : Except String Bool
  title : Except String String
  description : Except String (Option String)

/-- Row decoding, `Intervention::from_row`
(`src/db/models/interventions.rs` lines 116-150). Note the source calls
`.unwrap()` on `Status::from_db_str` and `Severity::from_db_str`, so an
unknown enumeration string panics instead of surfacing as a returned
error. -/
def Intervention.from_row (row : Row) : Except Fail Intervention := do
  let id ← tryGet row.id
  let start_ts ← tryGet row.start_date
  let start_date ← unwrapO (from_timestamp_opt start_ts)
    "called Option::unwrap() on a None value"
  let estimated_duration ← tryGet row.estimated_duration
  let end_ts ← tryGet row.end_date
  let end_date := end_ts.bind from_timestamp_opt
  let status_str ← tryGet row.status
  let status ← unwrapE (Status.from_db_str status_str)
  let severity_str ← tryGet row.severity
  let severity ← unwrapE (Severity.from_db_str severity_str)
  let is_planned ← tryGet row.is_planned
  let title ← tryGet row.title
  let description ← tryGet row.description
  .ok { id := some id, start_date, estimated_duration, end_date, status,
        severity, is_planned, title, description }

/-- A well-formed row whose status column holds a string outside the closed
status table. -/
def bogusStatusRow : Row :=
  { id := .ok 1
    start_date := .ok 0
    estimated_duration := .ok none
    end_date := .ok none
    status := .ok "bogus"
    severity := .ok "full_outage"
    is_planned := .ok false
    title := .ok "t"
    description := .ok none }

/-- A well-formed row whose severity column holds a string outside the
closed severity table. -/
def bogusSeverityRow : Row :=
  { id := .ok 2
    start_date := .ok 0
    estimated_duration := .ok none
    end_date := .ok none
    status := .ok "ongoing"
    severity := .ok "wat"
    is_planned := .ok false
    title := .ok "t"
    description := .ok none }

/-- C7: encoding any Severity or Status to its storage string and decoding
it back yields the original value, and the display label and CSS class
tables are injective (the closed table round-trips exactly). -/
theorem c7_enum_roundtrip :
    (∀ s : Severity, Severity.from_db_str (Severity.to_db_str s) = .ok s) ∧
    (∀ s : Status, Status.from_db_str (Status.to_db_str s) = .ok s) ∧
    (∀ a b : Severity, Severity.to_css_class a = Severity.to_css_class b → a = b) ∧
    (∀ a b : Severity, Severity.label a = Severity.label b → a = b) ∧
    (∀ a b : Status, Status.label a = Status.label b → a = b) := by
  refine ⟨fun s => ?_, fun s => ?_, fun a b => ?_, fun a b => ?_, fun a b => ?_⟩
  · cases s <;> rfl
  · cases s <;> rfl
  · cases a <;> cases b <;> simp [Severity.to_css_class]
  · cases a <;> cases b <;> simp [Severity.label]
  · cases a <;> cases b <;> simp [Status.label]

/-- Witness for C7: the round-trip and injectivity conjuncts evaluated at
concrete enumeration values. -/
theorem c7_enum_roundtrip_witness :
    Status.from_db_str (Status.to_db_str .Planned) = .ok .Planned ∧
    Severity.PartialOutage = Severity.PartialOutage :=
  ⟨c7_enum_roundtrip.2.1 .Planned,
   c7_enum_roundtrip.2.2.1 .PartialOutage .PartialOutage rfl⟩

/-- C8 counterexample: decoding a row whose status column holds the unknown
string "bogus" panics (via the `.unwrap()` in `from_row`) instead of
failing with a returned error, refuting the claim that decoding fails with
an error and never panics. -/
theorem c8_counterexample :
    Intervention.from_row bogusStatusRow
      = .error (.panic "unexpected value for status: bogus") ∧
    isPanicR (Intervention.from_row bogusStatusRow) = true ∧
    isErrR (Intervention.from_row bogusStatusRow) = false := by
  refine ⟨rfl, rfl, rfl⟩

/-- C8 amended: an unknown status or severity string is never silently
defaulted — `from_db_str` rejects it — but `Intervention::from_row`
unwraps that rejection, so decoding such a row panics rather than
returning an error. -/
theorem c8_amended :
    (∀ (row : Row) (i d : Int) (ed e : Option Int) (s : String),
      row.id = .ok i → row.start_date = .ok d →
      row.estimated_duration = .ok ed → row.end_date = .ok e →
      row.status = .ok s → isErrS (Status.from_db_str s) = true →
      Intervention.from_row row
        = .error (.panic ("unexpected value for status: " ++ s))) ∧
    (∀ (row : Row) (i d : Int) (ed e : Option Int) (s v : String) (st : Status),
      row.id = .ok i → row.start_date = .ok d →
      row.estimated_duration = .ok ed → row.end_date = .ok e →
      row.status = .ok s → Status.from_db_str s = .ok st →
      row.severity = .ok v → isErrS (Severity.from_db_str v) = true →
      Intervention.from_row row
        = .error (.panic ("unexpected value for severity: " ++ v))) := by
  constructor
  · intro row i d ed e s hid hsd hed hend hst herr
    have hmsg : Status.from_db_str s = .error ("unexpected value for status: " ++ s) := by
      unfold Status.from_db_str at herr ⊢
      split at herr <;> simp_all [isErrS]
    simp [Intervention.from_row, hid, hsd, hed, hend, hst, hmsg, tryGet,
      unwrapO, unwrapE, from_timestamp_opt, Bind.bind, Except.bind]
  · intro row i d ed e s v st hid hsd hed hend hst hdec hsev herr
    have hmsg : Severity.from_db_str v = .error ("unexpected value for severity: " ++ v) := by
      unfold Severity.from_db_str at herr ⊢
      split at herr <;> simp_all [isErrS]
    simp [Intervention.from_row, hid, hsd, hed, hend, hst, hdec, hsev, hmsg,
      tryGet, unwrapO, unwrapE, from_timestamp_opt, Bind.bind, Except.bind]

/-- Witness for C8 amended: the severity conjunct evaluated on the concrete
row whose severity column holds "wat". -/
theorem c8_amended_witness :
    Intervention.from_row bogusSeverityRow
      = .error (.panic ("unexpected value for severity: " ++ "wat")) :=
  c8_amended.2 bogusSeverityRow 2 0 none none "ongoing" "wat" .Ongoing
    rfl rfl rfl rfl rfl rfl rfl rfl

/-! ## The renderer, `regenerate_index` (`src/regenerate.rs` lines 50-196) -/

/-- View model of one intervention in the short per-service lists
(`ShortInterventionCtx`). `NaiveDateTime::to_string` is modelled by the
decimal string of the timestamp. -/
structure ShortInterventionCtx where
  id : Int
  title : String
  start_date : String
deriving DecidableEq, Repr

/-- View model of one service section (`ServiceCtx`). -/
structure ServiceCtx where
  section_class : String
  url : String
  title : String
  planned : List ShortInterventionCtx
  ongoing : List ShortInterventionCtx
deriving DecidableEq, Repr

/-- View model of one intervention in the full list (`InterventionCtx`). -/
structure InterventionCtx where
  id : Int
  title : String
  start_date : String
  severity_class : String
  severity : String
  estimated_duration : String
  rendered_description : String
  services : List String
deriving DecidableEq, Repr

/-- The whole template context (`RegenerateIndexCtx`). -/
structure RegenerateIndexCtx where
  current_interventions : List InterventionCtx
  interventions : List InterventionCtx
  services : List ServiceCtx
deriving DecidableEq, Repr

/-- The reverse index `intervention_by_service`: the source's
`BTreeMap<ServiceId, Vec<&Intervention>>` is modelled as a total function
defaulting to the empty list (`entry(..).or_insert_with(Default::default)`
plus `.get` both agree with that view, since every inserted vector is
non-empty). -/
def SMap : Type := Int → List Intervention

/-- `entry(service_id).or_insert_with(Default::default).push(intervention)`. -/
def smapAdd (m : SMap) (sid : Int) (i : Intervention) : SMap :=
  fun k => if k = sid then m sid ++ [i] else m k

/-- The linear search
`services.iter().find(|service| service.id.unwrap() == service_id.0)`:
each candidate's id is unwrapped during the scan, so a `None` id panics. -/
def find_service : List Service → Int → Except Fail (Option Service)
  | [], _ => .ok none
  | s :: rest, sid => do
    let i ← unwrapO s.id "called Option::unwrap() on a None value"
    if i = sid then .ok (some s) else find_service rest sid

/-- Pure counterpart of `find_service` for stores whose services all carry
an id. -/
def find_service_pure : List Service → Int → Option Service
  | [], _ => none
  | s :: rest, sid => if s.id = some sid then some s else find_service_pure rest sid

/-- The message of `.context("unknown service with id {sid}")` — the braces
are literal in the source (a latent formatting slip), so the message is
this constant string. -/
def unknown_service_msg : String := "unknown service with id \x7bsid\x7d"

/-- The per-intervention closure over `affected_services`
(`src/regenerate.rs` lines 73-88): for each affected service id, push the
intervention into the reverse index, then resolve the id to a service name;
an unresolvable id aborts with the `unknown service` error. -/
def collect_service_names (services : List Service) (intervention : Intervention)
    (m : SMap) : List Int → Except Fail (SMap × List String)
  | [] => .ok (m, [])
  | sid :: rest => do
    let m1 := smapAdd m sid intervention
    let found ← find_service services sid
    match found with
    | some sv => do
      let (m2, names) ← collect_service_names services intervention m1 rest
      .ok (m2, sv.name :: names)
    | none => .error (.err unknown_service_msg)

/-- Body of the `for intervention in &interventions` loop
(`src/regenerate.rs` lines 68-107): fetch the affected service ids, build
the reverse index and the service-name list, then the `InterventionCtx`. -/
def process_intervention (services : List Service)
    (get_service_ids : Int → Except Fail (List Int)) (m : SMap)
    (intervention : Intervention) : Except Fail (SMap × InterventionCtx) := do
  let iid ← unwrapO intervention.id "called Option::unwrap() on a None value"
  let affected ← get_service_ids iid
  let (m1, names) ← collect_service_names services intervention m affected
  .ok (m1,
    { id := iid
      title := intervention.title
      start_date := toString intervention.start_date
      severity_class := intervention.severity.to_css_class
      severity := intervention.severity.label
      estimated_duration :=
        match intervention.estimated_duration with
        | some n => toString n ++ " minutes"
        | none => "unknown"
      rendered_description := intervention.description.getD "<???>"
      services := names })

/-- The whole intervention loop, threading the reverse index. -/
def process_interventions (services : List Service)
    (get_service_ids : Int → Except Fail (List Int)) (m : SMap) :
    List Intervention → Except Fail (SMap × List InterventionCtx)
  | [] => .ok (m, [])
  | i :: rest => do
    let (m1, ictx) ← process_intervention services get_service_ids m i
    let (m2, rest') ← process_interventions services get_service_ids m1 rest
    .ok (m2, ictx :: rest')

/-- One short entry (`ShortInterventionCtx` construction,
`src/regenerate.rs` lines 144-148): the id is unwrapped. -/
def short_ctx (i : Intervention) : Except Fail ShortInterventionCtx := do
  let iid ← unwrapO i.id "called Option::unwrap() on a None value"
  .ok { id := iid, title := i.title, start_date := toString i.start_date }

/-- Body of the `for s in &services` loop (`src/regenerate.rs` lines
112-160): partition the service's interventions into planned and ongoing
by the status rule, derive the section class, and build the short lists.
The source passes `now` to `is_planned`/`is_ongoing`, but the cited
status-based definitions ignore the clock, so no clock is modelled. -/
def build_service_ctx (m : SMap) (s : Service) : Except Fail ServiceCtx := do
  let sid ← unwrapO s.id "called Option::unwrap() on a None value"
  let assoc := m sid
  let planned := assoc.filter (fun i => is_planned_status i)
  let ongoing := assoc.filter (fun i => is_ongoing i)
  let section_class :=
    if ongoing.isEmpty = false then "error"
    else if planned.isEmpty = false then "warning"
    else "success"
  let plannedCtx ← planned.mapM short_ctx
  let ongoingCtx ← ongoing.mapM short_ctx
  .ok { section_class
        url := s.url
        title := s.name
        planned := plannedCtx
        ongoing := ongoingCtx }

/-- The render environment: the store reads, the template engine and the
file-system write that `regenerate_index` performs, as oracles.
`render` covers both `tera::Context::from_serialize` and
`Tera::render("index.html", ..)`. -/
structure RenderEnv where
  services : Except Fail (List Service)
  interventions : Except Fail (List Intervention)
  get_service_ids : Int → Except Fail (List Int)
  render : RegenerateIndexCtx → Except Fail String
  write_result : Except Fail Unit

/-- Everything `regenerate_index` computes before templating: the full
`RegenerateIndexCtx` handed to tera (`src/regenerate.rs` lines 54-179). -/
def buildIndexCtx (env : RenderEnv) : Except Fail RegenerateIndexCtx := do
  let services ← env.services
  let interventions ← env.interventions
  let (m, interventions_ctx) ←
    process_interventions services env.get_service_ids (fun _ => []) interventions
  let services_ctx ← services.mapM (build_service_ctx m)
  let current_interventions :=
    (interventions.zip interventions_ctx).filterMap
      (fun p => if is_ongoing p.1 then some p.2 else none)
  .ok { current_interventions, interventions := interventions_ctx,
        services := services_ctx }

/-- `regenerate_index` (`src/regenerate.rs` lines 50-196): build the
context, render the template, then write `index.html` into the cache
directory. The second component lists the file writes performed
(`fs::write`), as pairs of path and content. -/
def regenerate_index (env : RenderEnv) : Except Fail Unit × List (String × String) :=
  match buildIndexCtx env with
  | .error f => (.error f, [])
  | .ok ctx =>
    match env.render ctx with
    | .error f => (.error f, [])
    | .ok content => (env.write_result, [("index.html", content)])

/-! ## Renderer lemmas -/

/-- When every service row carries an id, the source's unwrapping linear
search agrees with the pure one. -/
theorem find_service_eq_pure (svs : List Service) (sid : Int)
    (h : ∀ s ∈ svs, s.id.isSome = true) :
    find_service svs sid = .ok (find_service_pure svs sid) := by
  induction svs with
  | nil => rfl
  | cons s rest ih =>
    obtain ⟨v, hsv⟩ := Option.isSome_iff_exists.mp (h s (List.mem_cons_self s rest))
    have hrest : ∀ x ∈ rest, x.id.isSome = true :=
      fun x hx => h x (List.mem_cons_of_mem _ hx)
    by_cases hv : v = sid
    · subst hv
      simp [find_service, find_service_pure, hsv, unwrapO, Bind.bind, Except.bind]
    · simp [find_service, find_service_pure, hsv, hv, unwrapO, Bind.bind,
        Except.bind, ih hrest]

/-- If every affected id resolves, the name-collection closure succeeds. -/
theorem collect_ok_of_resolvable (svs : List Service) (i : Intervention)
    (hwf : ∀ s ∈ svs, s.id.isSome = true) :
    ∀ (sids : List Int), (∀ sid ∈ sids, (find_service_pure svs sid).isSome = true) →
    ∀ m, ∃ p, collect_service_names svs i m sids = .ok p := by
  intro sids
  induction sids with
  | nil => exact fun _ m => ⟨(m, []), rfl⟩
  | cons sid rest ih =>
    intro hall m
    obtain ⟨sv, hsv⟩ :=
      Option.isSome_iff_exists.mp (hall sid (List.mem_cons_self sid rest))
    obtain ⟨⟨m2, names⟩, hrec⟩ :=
      ih (fun x hx => hall x (List.mem_cons_of_mem _ hx)) (smapAdd m sid i)
    refine ⟨(m2, sv.name :: names), ?_⟩
    simp [collect_service_names, find_service_eq_pure svs sid hwf, hsv, hrec,
      Bind.bind, Except.bind]

/-- If some affected id does not resolve, the name-collection closure fails
with the `unknown service` error. -/
theorem collect_err_of_unresolvable (svs : List Service) (i : Intervention)
    (hwf : ∀ s ∈ svs, s.id.isSome = true) :
    ∀ (sids : List Int), (∃ sid ∈ sids, find_service_pure svs sid = none) →
    ∀ m, collect_service_names svs i m sids = .error (.err unknown_service_msg) := by
  intro sids
  induction sids with
  | nil => rintro ⟨sid, hmem, _⟩; cases hmem
  | cons sid0 rest ih =>
    rintro ⟨sid, hmem, hnone⟩ m
    cases hfp : find_service_pure svs sid0 with
    | none =>
      simp [collect_service_names, find_service_eq_pure svs sid0 hwf, hfp,
        Bind.bind, Except.bind]
    | some sv =>
      have hr : sid ∈ rest := by
        rcases List.mem_cons.mp hmem with h | h
        · subst h; rw [hfp] at hnone; cases hnone
        · exact h
      simp [collect_service_names, find_service_eq_pure svs sid0 hwf, hfp,
        ih ⟨sid, hr, hnone⟩ (smapAdd m sid0 i), Bind.bind, Except.bind]

/-- A failing `get_service_ids` read propagates out of the intervention's
processing. -/
theorem process_intervention_err_ids (svs : List Service)
    (gsi : Int → Except Fail (List Int)) (m : SMap) (i : Intervention)
    (iid : Int) (e : String) (hii : i.id = some iid)
    (hg : gsi iid = .error (.err e)) :
    process_intervention svs gsi m i = .error (.err e) := by
  simp [process_intervention, hii, hg, unwrapO, Bind.bind, Except.bind]

/-- An unresolvable affected service id fails the intervention's
processing with the `unknown service` error. -/
theorem process_intervention_err_unres (svs : List Service)
    (gsi : Int → Except Fail (List Int)) (m : SMap) (i : Intervention)
    (iid : Int) (sids : List Int)
    (hwf : ∀ s ∈ svs, s.id.isSome = true) (hii : i.id = some iid)
    (hg : gsi iid = .ok sids)
    (hex : ∃ sid ∈ sids, find_service_pure svs sid = none) :
    process_intervention svs gsi m i = .error (.err unknown_service_msg) := by
  simp [process_intervention, hii, hg, unwrapO, Bind.bind, Except.bind,
    collect_err_of_unresolvable svs i hwf sids hex m]

/-- When the id read succeeds and every affected id resolves, the
intervention's processing succeeds. -/
theorem process_intervention_ok_all (svs : List Service)
    (gsi : Int → Except Fail (List Int)) (m : SMap) (i : Intervention)
    (iid : Int) (sids : List Int)
    (hwf : ∀ s ∈ svs, s.id.isSome = true) (hii : i.id = some iid)
    (hg : gsi iid = .ok sids)
    (hall : ∀ sid ∈ sids, (find_service_pure svs sid).isSome = true) :
    ∃ out, process_intervention svs gsi m i = .ok out := by
  obtain ⟨⟨m1, names⟩, hc⟩ := collect_ok_of_resolvable svs i hwf sids hall m
  refine ⟨(m1,
    { id := iid
      title := i.title
      start_date := toString i.start_date
      severity_class := i.severity.to_css_class
      severity := i.severity.label
      estimated_duration :=
        match i.estimated_duration with
        | some n => toString n ++ " minutes"
        | none => "unknown"
      rendered_description := i.description.getD "<???>"
      services := names }), ?_⟩
  simp [process_intervention, hii, hg, unwrapO, Bind.bind, Except.bind, hc]

/-- One intervention of a render pass fails to resolve: its association
read errs, or one of its affected service ids matches no listed service. -/
def resolution_fails (svs : List Service)
    (gsi : Int → Except Fail (List Int)) (i : Intervention) : Prop :=
  ∃ iid, i.id = some iid ∧
    ((∃ e, gsi iid = .error (.err e)) ∨
     (∃ sids, gsi iid = .ok sids ∧ ∃ sid ∈ sids, find_service_pure svs sid = none))

/-- If any intervention of the pass fails to resolve, the whole
intervention loop returns an error (never a partial result). -/
theorem process_interventions_err (svs : List Service)
    (gsi : Int → Except Fail (List Int))
    (hwfs : ∀ s ∈ svs, s.id.isSome = true)
    (hpf : ∀ iid, isPanicR (gsi iid) = false) :
    ∀ (ints : List Intervention), (∀ i ∈ ints, i.id.isSome = true) →
    (∃ i ∈ ints, resolution_fails svs gsi i) →
    ∀ m, ∃ e, process_interventions svs gsi m ints = .error (.err e) := by
  intro ints
  induction ints with
  | nil => rintro _ ⟨i, hmem, _⟩; cases hmem
  | cons i0 rest ih =>
    rintro hwfi ⟨i, hmem, hfail⟩ m
    obtain ⟨iid0, hii0⟩ :=
      Option.isSome_iff_exists.mp (hwfi i0 (List.mem_cons_self i0 rest))
    cases hg : gsi iid0 with
    | error f =>
      cases f with
      | err e =>
        exact ⟨e, by simp [process_interventions,
          process_intervention_err_ids svs gsi m i0 iid0 e hii0 hg,
          Bind.bind, Except.bind]⟩
      | panic p =>
        have hcontra := hpf iid0
        rw [hg] at hcontra
        simp [isPanicR] at hcontra
    | ok sids =>
      by_cases hall : ∀ sid ∈ sids, (find_service_pure svs sid).isSome = true
      · obtain ⟨⟨m1, ictx⟩, hp⟩ :=
          process_intervention_ok_all svs gsi m i0 iid0 sids hwfs hii0 hg hall
        have hrest : ∃ j ∈ rest, resolution_fails svs gsi j := by
          rcases List.mem_cons.mp hmem with heq | hmemr
          · exfalso
            subst heq
            obtain ⟨iid, hii, hcase⟩ := hfail
            rw [hii0] at hii
            injection hii with hids
            subst hids
            rcases hcase with ⟨e, hge⟩ | ⟨sids', hgs, sid, hsmem, hsnone⟩
            · rw [hg] at hge; cases hge
            · rw [hg] at hgs
              injection hgs with hss
              subst hss
              have hsome := hall sid hsmem
              rw [hsnone] at hsome
              simp at hsome
          · exact ⟨i, hmemr, hfail⟩
        obtain ⟨e, hr⟩ := ih (fun x hx => hwfi x (List.mem_cons_of_mem _ hx)) hrest m1
        exact ⟨e, by simp [process_interventions, hp, hr, Bind.bind, Except.bind]⟩
      · push_neg at hall
        obtain ⟨sid, hsmem, hns⟩ := hall
        have hnone : find_service_pure svs sid = none := by
          cases hfp : find_service_pure svs sid with
          | none => rfl
          | some sv => rw [hfp] at hns; simp at hns
        exact ⟨unknown_service_msg, by simp [process_interventions,
          process_intervention_err_unres svs gsi m i0 iid0 sids hwfs hii0 hg
            ⟨sid, hsmem, hnone⟩, Bind.bind, Except.bind]⟩

/-- Well-formedness of a render environment: store reads fail with errors
rather than panics, and every row read back from the store carries an id
(which is what `from_row` guarantees). -/
def WFEnv (env : RenderEnv) : Prop :=
  isPanicR env.services = false ∧
  (∀ iid, isPanicR (env.get_service_ids iid) = false) ∧
  (∀ svs, env.services = .ok svs → ∀ s ∈ svs, s.id.isSome = true) ∧
  (∀ ints, env.interventions = .ok ints → ∀ i ∈ ints, i.id.isSome = true)

/-- The failure condition of claim C4: some store read fails, or some
associated service id of some intervention cannot be resolved against the
service listing. -/
def render_pass_fails (env : RenderEnv) : Prop :=
  (∃ e, env.services = .error (.err e)) ∨
  (∃ e, env.interventions = .error (.err e)) ∨
  (∃ svs ints, env.services = .ok svs ∧ env.interventions = .ok ints ∧
    ∃ i ∈ ints, resolution_fails svs env.get_service_ids i)

/-- C4: a render pass in which some store read fails or some associated
service id cannot be resolved fails atomically — `regenerate_index`
returns an error and performs no file write, leaving prior artifacts
unchanged. -/
theorem c4_atomic_failure (env : RenderEnv) (hwf : WFEnv env)
    (hfail : render_pass_fails env) :
    isErrR (regenerate_index env).1 = true ∧ (regenerate_index env).2 = [] := by
  obtain ⟨hpfs, hpfg, hws, hwi⟩ := hwf
  have hbuild : ∃ e, buildIndexCtx env = .error (.err e) := by
    rcases hfail with ⟨e, hs⟩ | ⟨e, hi⟩ | ⟨svs, ints, hs, hi, hex⟩
    · exact ⟨e, by simp [buildIndexCtx, hs, Bind.bind, Except.bind]⟩
    · cases hs : env.services with
      | error f =>
        cases f with
        | err e0 => exact ⟨e0, by simp [buildIndexCtx, hs, Bind.bind, Except.bind]⟩
        | panic p => rw [hs] at hpfs; simp [isPanicR] at hpfs
      | ok svs => exact ⟨e, by simp [buildIndexCtx, hs, hi, Bind.bind, Except.bind]⟩
    · obtain ⟨e, hp⟩ := process_interventions_err svs env.get_service_ids
        (hws svs hs) hpfg ints (hwi ints hi) hex (fun _ => [])
      exact ⟨e, by simp [buildIndexCtx, hs, hi, hp, Bind.bind, Except.bind]⟩
  obtain ⟨e, hb⟩ := hbuild
  simp [regenerate_index, hb, isErrR]

/-- A service listing with one service, id 1. -/
def svc1 : Service := { id := some 1, name := "API", url := "https://api.example" }

/-- One ongoing intervention, id 10. -/
def int10 : Intervention :=
  { id := some 10, start_date := 0, estimated_duration := none,
    end_date := none, status := .Ongoing, severity := .FullOutage,
    is_planned := false, title := "Timeout spike", description := none }

/-- A store in which intervention 10 references service id 2, which the
service listing does not contain. -/
def env4 : RenderEnv :=
  { services := .ok [svc1]
    interventions := .ok [int10]
    get_service_ids := fun _ => .ok [2]
    render := fun _ => .ok "page"
    write_result := .ok () }

/-- Witness for C4: the atomic-failure theorem evaluated on the concrete
store where an intervention references the unknown service id 2. -/
theorem c4_atomic_failure_witness :
    isErrR (regenerate_index env4).1 = true ∧ (regenerate_index env4).2 = [] := by
  refine c4_atomic_failure env4 ⟨rfl, fun _ => rfl, ?_, ?_⟩ ?_
  · intro svs hs s hsmem
    cases hs
    rcases List.mem_singleton.mp hsmem with rfl
    rfl
  · intro ints hi i himem
    cases hi
    rcases List.mem_singleton.mp himem with rfl
    rfl
  · refine Or.inr (Or.inr ⟨[svc1], [int10], rfl, rfl, int10, ?_, 10, rfl, ?_⟩)
    · exact List.mem_singleton.mpr rfl
    · exact Or.inr ⟨[2], rfl, 2, List.mem_singleton.mpr rfl, rfl⟩

/-- Projection of a processed intervention: its view model carries the
source row's start date (stringified) and title. -/
theorem process_intervention_fields (svs : List Service)
    (gsi : Int → Except Fail (List Int)) (m : SMap) (i : Intervention)
    (m' : SMap) (ictx : InterventionCtx)
    (h : process_intervention svs gsi m i = .ok (m', ictx)) :
    ictx.start_date = toString i.start_date ∧ ictx.title = i.title := by
  unfold process_intervention at h
  cases hii : i.id with
  | none => rw [hii] at h; simp [unwrapO, Bind.bind, Except.bind] at h
  | some iid =>
    rw [hii] at h
    simp only [unwrapO, Bind.bind, Except.bind] at h
    cases hg : gsi iid with
    | error f => rw [hg] at h; simp at h
    | ok sids =>
      rw [hg] at h
      simp only [] at h
      cases hc : collect_service_names svs i m sids with
      | error f => rw [hc] at h; simp at h
      | ok p =>
        obtain ⟨m1, names⟩ := p
        rw [hc] at h
        simp at h
        obtain ⟨-, hictx⟩ := h
        rw [← hictx]
        exact ⟨rfl, rfl⟩

/-- Projection of the whole intervention loop: the rendered list has
exactly the store's interventions, in the store's order. -/
theorem process_interventions_proj (svs : List Service)
    (gsi : Int → Except Fail (List Int)) :
    ∀ (ints : List Intervention) (m m' : SMap) (ctxs : List InterventionCtx),
    process_interventions svs gsi m ints = .ok (m', ctxs) →
    ctxs.map (fun ic => ic.start_date) = ints.map (fun i => toString i.start_date) ∧
    ctxs.map (fun ic => ic.title) = ints.map (fun i => i.title) := by
  intro ints
  induction ints with
  | nil =>
    intro m m' ctxs h
    simp [process_interventions] at h
    obtain ⟨-, hc⟩ := h
    simp [hc]
  | cons i rest ih =>
    intro m m' ctxs h
    unfold process_interventions at h
    cases hp : process_intervention svs gsi m i with
    | error f => rw [hp] at h; simp [Bind.bind, Except.bind] at h
    | ok p =>
      obtain ⟨m1, ictx⟩ := p
      rw [hp] at h
      simp only [Bind.bind, Except.bind] at h
      cases hr : process_interventions svs gsi m1 rest with
      | error f => rw [hr] at h; simp at h
      | ok q =>
        obtain ⟨m2, ctxs'⟩ := q
        rw [hr] at h
        simp at h
        obtain ⟨-, hc⟩ := h
        obtain ⟨hsd, ht⟩ := process_intervention_fields svs gsi m i m1 ictx hp
        obtain ⟨ihs, iht⟩ := ih m1 m2 ctxs' hr
        simp [← hc, hsd, ht, ihs, iht]

/-- C5 amended: the rendered intervention list preserves the order in
which the store returned the interventions (`Intervention::get_all` has no
ORDER BY and `regenerate_index` performs no sort), so it is sorted by
`start_date` descending only when the store already returns it that way. -/
theorem c5_amended_order_preserved (env : RenderEnv)
    (ints : List Intervention) (ctx : RegenerateIndexCtx)
    (hi : env.interventions = .ok ints) (hok : buildIndexCtx env = .ok ctx) :
    ctx.interventions.map (fun ic => ic.start_date)
      = ints.map (fun i => toString i.start_date) ∧
    ctx.interventions.map (fun ic => ic.title) = ints.map (fun i => i.title) := by
  unfold buildIndexCtx at hok
  cases hs : env.services with
  | error f => rw [hs] at hok; simp [Bind.bind, Except.bind] at hok
  | ok svs =>
    rw [hs, hi] at hok
    simp only [Bind.bind, Except.bind] at hok
    cases hp : process_interventions svs env.get_service_ids (fun _ => []) ints with
    | error f => rw [hp] at hok; simp at hok
    | ok p =>
      obtain ⟨m, ictxs⟩ := p
      rw [hp] at hok
      simp only [] at hok
      cases hm : svs.mapM (build_service_ctx m) with
      | error f => rw [hm] at hok; simp at hok
      | ok sctxs =>
        rw [hm] at hok
        simp at hok
        obtain ⟨hsd, ht⟩ :=
          process_interventions_proj svs env.get_service_ids ints
            (fun _ => []) m ictxs hp
        rw [← hok]
        exact ⟨hsd, ht⟩

/-- Interventions with start dates 1, 3 and 2, as the store returns them. -/
def intA : Intervention :=
  { id := some 1, start_date := 1, estimated_duration := none,
    end_date := none, status := .Identified, severity := .PartialOutage,
    is_planned := false, title := "a", description := none }

/-- Second stored intervention, start date 3. -/
def intB : Intervention :=
  { id := some 2, start_date := 3, estimated_duration := none,
    end_date := none, status := .Identified, severity := .PartialOutage,
    is_planned := false, title := "b", description := none }

/-- Third stored intervention, start date 2. -/
def intC : Intervention :=
  { id := some 3, start_date := 2, estimated_duration := none,
    end_date := none, status := .Identified, severity := .PartialOutage,
    is_planned := false, title := "c", description := none }

/-- A store returning interventions in the unsorted order [1, 3, 2]. -/
def env5 : RenderEnv :=
  { services := .ok []
    interventions := .ok [intA, intB, intC]
    get_service_ids := fun _ => .ok []
    render := fun _ => .ok "page"
    write_result := .ok () }

/-- C5 counterexample: for a store returning start dates in order
[1, 3, 2], the rendered intervention list keeps that order instead of the
claimed descending order [3, 2, 1]. -/
theorem c5_counterexample :
    (match buildIndexCtx env5 with
     | .ok ctx => ctx.interventions.map (fun ic => ic.start_date)
     | .error _ => []) = ["1", "3", "2"] ∧
    ["1", "3", "2"] ≠ ["3", "2", "1"] := by
  exact ⟨rfl, by decide⟩

/-- The context built for the concrete unsorted store `env5`. -/
def ctx5 : RegenerateIndexCtx :=
  { current_interventions := []
    interventions :=
      [{ id := 1, title := "a", start_date := "1",
         severity_class := "partial-outage", severity := "Partial outage",
         estimated_duration := "unknown", rendered_description := "<???>",
         services := [] },
       { id := 2, title := "b", start_date := "3",
         severity_class := "partial-outage", severity := "Partial outage",
         estimated_duration := "unknown", rendered_description := "<???>",
         services := [] },
       { id := 3, title := "c", start_date := "2",
         severity_class := "partial-outage", severity := "Partial outage",
         estimated_duration := "unknown", rendered_description := "<???>",
         services := [] }]
    services := [] }

/-- Witness for C5 amended: order preservation evaluated on the concrete
unsorted store. -/
theorem c5_amended_order_preserved_witness :
    ctx5.interventions.map (fun ic => ic.start_date)
      = [intA, intB, intC].map (fun i => toString i.start_date) :=
  (c5_amended_order_preserved env5 [intA, intB, intC] ctx5 rfl rfl).1

/-- C6: the section class of a service is computed from its associated
interventions — `error` when at least one has status Ongoing, else
`warning` when at least one has status Planned, else `success`. -/
theorem c6_classification (m : SMap) (s : Service) (sid : Int)
    (ctx : ServiceCtx) (hid : s.id = some sid)
    (hok : build_service_ctx m s = .ok ctx) :
    (ctx.section_class = "error" ↔ ∃ i ∈ m sid, is_ongoing i = true) ∧
    (ctx.section_class = "warning" ↔
      (¬ (∃ i ∈ m sid, is_ongoing i = true)) ∧
        ∃ i ∈ m sid, is_planned_status i = true) ∧
    (ctx.section_class = "success" ↔
      (¬ (∃ i ∈ m sid, is_ongoing i = true)) ∧
        ¬ ∃ i ∈ m sid, is_planned_status i = true) ∧
    (∀ i : Intervention, is_ongoing i = (i.status == Status.Ongoing)) ∧
    (∀ i : Intervention, is_planned_status i = (i.status == Status.Planned)) := by
  unfold build_service_ctx at hok
  rw [hid] at hok
  simp only [unwrapO, Bind.bind, Except.bind] at hok
  cases hp : ((m sid).filter (fun i => is_planned_status i)).mapM short_ctx with
  | error f => rw [hp] at hok; simp at hok
  | ok plannedCtx =>
    rw [hp] at hok
    simp only [] at hok
    cases ho : ((m sid).filter (fun i => is_ongoing i)).mapM short_ctx with
    | error f => rw [ho] at hok; simp at hok
    | ok ongoingCtx =>
      rw [ho] at hok
      simp at hok
      have hsc : ctx.section_class =
          (if ∃ x ∈ m sid, is_ongoing x = true then "error"
           else if ∃ x ∈ m sid, is_planned_status x = true then "warning"
           else "success") := by
        rw [← hok]
      by_cases hP : ∃ x ∈ m sid, is_ongoing x = true
      · rw [if_pos hP] at hsc
        refine ⟨?_, ?_, ?_, fun i => rfl, fun i => rfl⟩
        · rw [hsc]; exact ⟨fun _ => hP, fun _ => rfl⟩
        · rw [hsc]
          constructor
          · intro h; exact absurd h (by decide)
          · rintro ⟨hnp, -⟩; exact absurd hP hnp
        · rw [hsc]
          constructor
          · intro h; exact absurd h (by decide)
          · rintro ⟨hnp, -⟩; exact absurd hP hnp
      · rw [if_neg hP] at hsc
        by_cases hQ : ∃ x ∈ m sid, is_planned_status x = true
        · rw [if_pos hQ] at hsc
          refine ⟨?_, ?_, ?_, fun i => rfl, fun i => rfl⟩
          · rw [hsc]
            constructor
            · intro h; exact absurd h (by decide)
            · intro hex; exact absurd hex hP
          · rw [hsc]; exact ⟨fun _ => ⟨hP, hQ⟩, fun _ => rfl⟩
          · rw [hsc]
            constructor
            · intro h; exact absurd h (by decide)
            · rintro ⟨-, hnq⟩; exact absurd hQ hnq
        · rw [if_neg hQ] at hsc
          refine ⟨?_, ?_, ?_, fun i => rfl, fun i => rfl⟩
          · rw [hsc]
            constructor
            · intro h; exact absurd h (by decide)
            · intro hex; exact absurd hex hP
          · rw [hsc]
            constructor
            · intro h; exact absurd h (by decide)
            · rintro ⟨-, hq⟩; exact absurd hq hQ
          · rw [hsc]; exact ⟨fun _ => ⟨hP, hQ⟩, fun _ => rfl⟩

/-- Reverse index associating the ongoing intervention 10 with service 1. -/
def mW : SMap := fun k => if k = 1 then [int10] else []

/-- The service context built for service 1 under `mW`. -/
def ctxW : ServiceCtx :=
  { section_class := "error", url := "https://api.example", title := "API",
    planned := [],
    ongoing := [{ id := 10, title := "Timeout spike", start_date := "0" }] }

/-- Witness for C6: the classification theorem evaluated for the concrete
service with one ongoing intervention; its class is `error`. -/
theorem c6_classification_witness : ctxW.section_class = "error" :=
  (c6_classification mW svc1 1 ctxW rfl rfl).1.mpr
    ⟨int10, List.mem_singleton.mpr rfl, rfl⟩

/-! ## The regeneration coordinator, `pages` (`src/regenerate.rs` lines 237-277)

The loop has two await points. When `start` is false it awaits
`receiver.recv()`; when `start` is true it awaits a biased
`tokio::select!` between `receiver.recv()` and `regenerate_all(&app)`.
A trace lists, for each loop iteration, which awaited outcome resolved
that iteration:

  - `sig`: `recv()` yields `Some(())`;
  - `closed`: `recv()` yields `None` (the channel is closed);
  - `done ok`: the in-flight `regenerate_all` finishes, successfully or
    with an error.

In the select, the recv arm is matched with the wildcard pattern `_`, so
both `sig` and `closed` take the first arm: they set `start = true`,
`continue`, and by dropping the `select!` they drop — cancel — the
`regenerate_all` future of that iteration. A `done` event can only occur
while `start` is true (no render is in flight in the waiting state), so
the waiting-state `done` case below is dead and consumes the event with
no effect. -/

/-- Observable counters of one coordinator run over a finite trace. -/
structure CoordStats where
  completed : Nat
  interrupted : Nat
  errorsLogged : Nat
  terminated : Bool
  finalStart : Bool
deriving DecidableEq, Repr

/-- Awaited outcomes a coordinator iteration can observe. -/
inductive Ev where
  | sig
  | closed
  | done (ok : Bool)
deriving DecidableEq, Repr

/-- Trace semantics of the `pages` loop: `completed` counts renders that
ran to completion (the `res = regenerate_all(&app)` arm), `interrupted`
counts select iterations resolved by the recv arm — each of which drops
the in-flight render — `errorsLogged` counts `Err` completions, and
`terminated` records whether the loop hit its `break` (waiting state,
channel closed) within the trace. -/
def coordRun : Bool → List Ev → CoordStats
  | start, [] =>
    { completed := 0, interrupted := 0, errorsLogged := 0,
      terminated := false, finalStart := start }
  | false, Ev.sig :: rest => coordRun true rest
  | false, Ev.closed :: _ =>
    { completed := 0, interrupted := 0, errorsLogged := 0,
      terminated := true, finalStart := false }
  | false, Ev.done _ :: rest => coordRun false rest
  | true, Ev.sig :: rest =>
    let s := coordRun true rest
    { s with interrupted := s.interrupted + 1 }
  | true, Ev.closed :: rest =>
    let s := coordRun true rest
    { s with interrupted := s.interrupted + 1 }
  | true, Ev.done ok :: rest =>
    let s := coordRun false rest
    { s with completed := s.completed + 1,
             errorsLogged := s.errorsLogged + (if ok then 0 else 1) }

/-- Number of delivered signals in a trace. -/
def countSig : List Ev → Nat
  | [] => 0
  | Ev.sig :: r => countSig r + 1
  | _ :: r => countSig r

/-- Number of closed-channel notifications in a trace. -/
def countClosed : List Ev → Nat
  | [] => 0
  | Ev.closed :: r => countClosed r + 1
  | _ :: r => countClosed r

/-- C1 counterexample: one signal starts a render; N = 1 signal arrives
while it is in flight; the restarted render completes. The claim predicts
the in-flight render completes and exactly one additional render follows,
for 2 renders in total; the code cancels the in-flight render (one
interruption), so exactly 1 render completes. -/
theorem c1_counterexample :
    (coordRun false [Ev.sig, Ev.sig, Ev.done true]).completed = 1 ∧
    (coordRun false [Ev.sig, Ev.sig, Ev.done true]).interrupted = 1 ∧
    (1 : Nat) ≠ 2 := by
  refine ⟨rfl, rfl, by decide⟩

/-- C1 amended: a signal delivered while a render is in flight cancels and
restarts it rather than coalescing into one pending follow-up, so the
number of render attempts (completions plus interruptions) is bounded by
the number of signals (plus closed-channel notifications) in the trace —
a bound in the number of signals, not in bursts + 1. -/
theorem c1_amended_renders_bounded_by_signals :
    ∀ (evs : List Ev) (start : Bool),
    (coordRun start evs).completed + (coordRun start evs).interrupted
      ≤ countSig evs + countClosed evs + (if start then 1 else 0) := by
  intro evs
  induction evs with
  | nil => intro start; simp [coordRun]
  | cons e rest ih =>
    intro start
    cases start with
    | false =>
      cases e with
      | sig =>
        have h := ih true
        simp at h
        simp [coordRun, countSig, countClosed]
        omega
      | closed => simp [coordRun, countSig, countClosed]
      | done ok =>
        have h := ih false
        simp at h
        simp [coordRun, countSig, countClosed]
        omega
    | true =>
      cases e with
      | sig =>
        have h := ih true
        simp at h
        simp [coordRun, countSig, countClosed]
        omega
      | closed =>
        have h := ih true
        simp at h
        simp [coordRun, countSig, countClosed]
        omega
      | done ok =>
        have h := ih false
        simp at h
        simp [coordRun, countSig, countClosed]
        omega

/-- C2 counterexample: a signal arriving while a render is in flight drops
that render (one interruption, zero completions) instead of only marking a
pending flag and letting the render run to completion; moreover closing
the signal source while a render is in flight does not terminate the
coordinator (the wildcard recv arm treats `None` like a signal). -/
theorem c2_counterexample :
    (coordRun false [Ev.sig, Ev.sig]).interrupted = 1 ∧
    (coordRun false [Ev.sig, Ev.sig]).completed = 0 ∧
    (coordRun false [Ev.sig, Ev.closed]).terminated = false := by
  refine ⟨rfl, rfl, rfl⟩

/-- C2 amended: a signal arriving while a render is in flight cancels the
in-flight render and restarts the loop; closure of the signal source
terminates the coordinator only from the waiting state — while a render
is in flight the coordinator cannot terminate before some render first
runs to completion. -/
theorem c2_amended_cancel_and_closure :
    (∀ rest : List Ev,
      coordRun true (Ev.sig :: rest)
        = (let s := coordRun true rest;
           { s with interrupted := s.interrupted + 1 })) ∧
    (∀ evs : List Ev, (coordRun true evs).terminated = true →
      Ev.done true ∈ evs ∨ Ev.done false ∈ evs) ∧
    (∀ rest : List Ev, (coordRun false (Ev.closed :: rest)).terminated = true) := by
  refine ⟨fun rest => rfl, ?_, fun rest => rfl⟩
  intro evs
  induction evs with
  | nil => intro h; simp [coordRun] at h
  | cons e rest ih =>
    cases e with
    | sig =>
      intro h
      simp [coordRun] at h
      rcases ih h with h1 | h1
      · exact Or.inl (List.mem_cons_of_mem _ h1)
      · exact Or.inr (List.mem_cons_of_mem _ h1)
    | closed =>
      intro h
      simp [coordRun] at h
      rcases ih h with h1 | h1
      · exact Or.inl (List.mem_cons_of_mem _ h1)
      · exact Or.inr (List.mem_cons_of_mem _ h1)
    | done ok =>
      intro h
      cases ok with
      | true => exact Or.inl (List.mem_cons_self _ _)
      | false => exact Or.inr (List.mem_cons_self _ _)

/-- Witness for C2 amended: the cancellation equation and the
termination-needs-a-completion conjunct evaluated on concrete traces. -/
theorem c2_amended_cancel_and_closure_witness :
    coordRun true [Ev.sig, Ev.done true]
      = (let s := coordRun true [Ev.done true];
         { s with interrupted := s.interrupted + 1 }) ∧
    (Ev.done true ∈ [Ev.done true, Ev.closed] ∨
      Ev.done false ∈ [Ev.done true, Ev.closed]) :=
  ⟨c2_amended_cancel_and_closure.1 [Ev.done true],
   c2_amended_cancel_and_closure.2.1 [Ev.done true, Ev.closed] rfl⟩

/-- C3: a render completing with an error drives exactly the same
state-machine transition as a successful completion — the completion is
counted, the loop goes back to waiting, is not terminated, and consumes
the rest of the trace (subsequent signals included) identically; the only
difference is one more logged error. -/
theorem c3_error_like_success (ok : Bool) (rest : List Ev) :
    (coordRun true (Ev.done ok :: rest)).completed
      = (coordRun false rest).completed + 1 ∧
    (coordRun true (Ev.done ok :: rest)).interrupted
      = (coordRun false rest).interrupted ∧
    (coordRun true (Ev.done ok :: rest)).terminated
      = (coordRun false rest).terminated ∧
    (coordRun true (Ev.done ok :: rest)).finalStart
      = (coordRun false rest).finalStart ∧
    (coordRun true (Ev.done ok :: rest)).errorsLogged
      = (coordRun false rest).errorsLogged + (if ok then 0 else 1) ∧
    (coordRun true [Ev.done ok]).terminated = false := by
  cases ok <;> simp [coordRun]

/-! ## The admin handler `create_intervention`
(`src/controllers/admin.rs` lines 173-334) and the hot-reload watcher
(`src/main.rs` lines 120-138 and 213-271) -/

/-- Accumulate decimal digits; any non-digit character rejects the
string. -/
def parse_u64_go : List Char → Nat → Option Nat
  | [], acc => some acc
  | c :: cs, acc =>
    if c.isDigit then parse_u64_go cs (acc * 10 + (c.toNat - 48)) else none

/-- Rust `str::parse::<u64>()`, as used for `estimated-duration` and
`services` form values: decimal digits only, empty input rejected (the
u64 overflow bound is not modelled; the claims never exercise it). -/
def parse_u64 (v : String) : Except String Nat :=
  match v.data with
  | [] => .error "cannot parse integer from empty string"
  | c :: cs =>
    match parse_u64_go (c :: cs) 0 with
    | some n => .ok n
    | none => .error "invalid digit found in string"

/-- `Option::context(msg)`: missing required form keys become errors. -/
def ofOption {α : Type} (o : Option α) (msg : String) : Except String α :=
  match o with
  | some a => .ok a
  | none => .error msg

/-- The parsed intervention form (`FormIntervention`). -/
structure FormIntervention where
  title : String
  description : String
  start_date : Int
  estimated_duration : Nat
  severity : Severity
  services : List Nat
deriving DecidableEq, Repr

/-- Accumulator of the manual key/value scan in
`FormIntervention::try_from`. -/
structure FormScan where
  title : Option String
  description : Option String
  start_date : Option Int
  estimated_duration : Option Nat
  severity : Option Severity
  services : List Nat

/-- One step of the key/value scan (`src/controllers/admin.rs` lines
196-215): known keys overwrite the corresponding slot (`services`
appends); any other key — in particular a `status` key — is ignored.
`parse_date` is the external chrono parser
(`NaiveDateTime::parse_from_str` with format `%Y-%m-%dT%H:%M`), passed as
an oracle. -/
def scan_step (parse_date : String → Except String Int) (st : FormScan)
    (kv : String × String) : Except String FormScan :=
  match kv.1 with
  | "title" => .ok { st with title := some kv.2 }
  | "description" => .ok { st with description := some kv.2 }
  | "start-date" => do
    let d ← parse_date kv.2
    .ok { st with start_date := some d }
  | "estimated-duration" => do
    let n ← parse_u64 kv.2
    .ok { st with estimated_duration := some n }
  | "severity" =>
    match kv.2 with
    | "partial-outage" => .ok { st with severity := some .PartialOutage }
    | "full-outage" => .ok { st with severity := some .FullOutage }
    | "performance-issue" => .ok { st with severity := some .PerformanceIssue }
    | _ => .error "invalid severity"
  | "services" => do
    let n ← parse_u64 kv.2
    .ok { st with services := st.services ++ [n] }
  | _ => .ok st

/-- `FormIntervention::try_from` (`src/controllers/admin.rs` lines
185-226), over the key/value pairs produced by `form_urlencoded::parse`
(external). Note there is no `status` key: the form cannot carry a
status. -/
def FormIntervention.try_from (parse_date : String → Except String Int)
    (value : List (String × String)) : Except String FormIntervention := do
  let st ← value.foldlM (scan_step parse_date)
    { title := none, description := none, start_date := none,
      estimated_duration := none, severity := none, services := [] }
  let title ← ofOption st.title "missing title"
  let description ← ofOption st.description "missing description"
  let start_date ← ofOption st.start_date "missing start date"
  let estimated_duration ← ofOption st.estimated_duration "missing estimated_duration"
  let severity ← ofOption st.severity "missing severity"
  .ok { title, description, start_date, estimated_duration, severity,
        services := st.services }

/-- The intervention record `create_intervention` builds from the parsed
form (`src/controllers/admin.rs` lines 266-276): status is hard-coded to
`Identified` and `is_planned` to `false`. -/
def intervention_of (payload : FormIntervention) : Intervention :=
  { id := none
    title := payload.title
    description := some payload.description
    status := Status.Identified
    start_date := payload.start_date
    estimated_duration := some (payload.estimated_duration : Int)
    end_date := none
    severity := payload.severity
    is_planned := false }

/-- HTTP status of the handler's response. -/
inductive HttpStatus where
  | created
  | badRequest
  | notFound
  | internalServerError
deriving DecidableEq, Repr

/-- Observable effects of one `create_intervention` request: the response
status, the interventions persisted to the store, the files written
directly into the cache directory, and the signals sent into the
coordinator's channel (the source sends none — the regenerate task is a
TODO). -/
structure AdminResult where
  status : HttpStatus
  inserted : List Intervention
  writtenFiles : List (String × String)
  signalsSent : Nat
deriving DecidableEq, Repr

/-- The store and external collaborators `create_intervention` uses. -/
structure AdminEnv where
  parse_date : String → Except String Int
  insert_intervention : Intervention → Except String Int
  service_by_id : Int → Except String (Option Service)
  rfc2822 : Int → String

/-- The `for sid in payload.services` loop (`src/controllers/admin.rs`
lines 285-296): a failing `Service::by_id` read returns 500, an unknown
service id returns 404 (the intervention stays inserted!), and
`Intervention::add_service` errors are only logged. -/
def attach_services (env : AdminEnv) : List Nat → Except HttpStatus Unit
  | [] => .ok ()
  | sid :: rest =>
    match env.service_by_id (sid : Int) with
    | .error _ => .error .internalServerError
    | .ok none => .error .notFound
    | .ok (some _) => attach_services env rest

/-- The inline per-intervention page template
(`src/controllers/admin.rs` lines 303-312). -/
def intervention_page_template : String :=
  "\n    <html>\n    <head><title>rustatouille - \x7b\x7btitle\x7d\x7d</title></head>\n    <body>\n    <h1>\x7b\x7btitle\x7d\x7d</h1>\n    <h3>\x7b\x7bdate\x7d\x7d</h3>\n    <p>\x7b\x7bdescription\x7d\x7d</p>\n    </body>\n    </html>\n    "

/-- The page content built by the chain of `.replace` calls; the source
unwraps `intervention.description`, which is `Some(payload.description)`
by construction, so the payload is substituted directly. `to_rfc2822` is
the external chrono formatter `rfc2822`. -/
def intervention_page_html (env : AdminEnv) (payload : FormIntervention) : String :=
  ((intervention_page_template.replace "\x7b\x7btitle\x7d\x7d" payload.title).replace
      "\x7b\x7bdescription\x7d\x7d" payload.description).replace
    "\x7b\x7bdate\x7d\x7d" (env.rfc2822 payload.start_date)

/-- `create_intervention` (`src/controllers/admin.rs` lines 251-334):
parse the form, insert the intervention, attach its services, then write
the per-intervention page `<id>.html` directly into the cache directory
(`fs::write`; a failure is only logged, so the write is attempted
unconditionally) and answer 201. No signal is sent to the regeneration
coordinator. -/
def create_intervention (env : AdminEnv) (request : List (String × String)) :
    AdminResult :=
  match FormIntervention.try_from env.parse_date request with
  | .error _ =>
    { status := .badRequest, inserted := [], writtenFiles := [], signalsSent := 0 }
  | .ok payload =>
    let intervention := intervention_of payload
    match env.insert_intervention intervention with
    | .error _ =>
      { status := .internalServerError, inserted := [], writtenFiles := [],
        signalsSent := 0 }
    | .ok int_id =>
      match attach_services env payload.services with
      | .error st =>
        { status := st, inserted := [intervention], writtenFiles := [],
          signalsSent := 0 }
      | .ok () =>
        { status := .created, inserted := [intervention]
          writtenFiles :=
            [(toString int_id ++ ".html", intervention_page_html env payload)]
          signalsSent := 0 }

/-- Rust `Path::extension()` over a file name: the part after the last
dot, none when there is no dot or the only dot is a leading one. -/
def extension (f : String) : Option String :=
  match f.splitOn "." with
  | [] => none
  | [_] => none
  | ["", _] => none
  | parts => parts.getLast?

/-- `copy_static_files_to_cache_dir` (`src/main.rs` lines 120-138): copy
every `css` or `js` file of the template directory into the cache
directory. -/
def copy_static_files_to_cache_dir (template_dir_files : List String) : List String :=
  template_dir_files.filter
    (fun f => extension f == some "css" || extension f == some "js")

/-- File-system event kinds of the `notify` watcher. -/
inductive EventKind where
  | create
  | modify
  | remove
  | access
  | any
  | other
deriving DecidableEq, Repr

/-- Observable effects of one watcher callback invocation. -/
structure WatcherEffect where
  writtenFiles : List String
  signalsSent : Nat
  templatesReloaded : Bool
deriving DecidableEq, Repr

/-- The hot-reload watcher callback (`src/main.rs` lines 218-266): on a
create/modify/remove event touching a `css` or `html` file, it copies the
static files into the cache directory itself, reloads the templates, and
sends one regenerate signal. -/
def watcher_on_event (template_dir_files : List String) (kind : EventKind)
    (paths : List String) : WatcherEffect :=
  match kind with
  | .access | .any | .other =>
    { writtenFiles := [], signalsSent := 0, templatesReloaded := false }
  | _ =>
    if paths.any (fun p => extension p == some "css" || extension p == some "html") then
      { writtenFiles := copy_static_files_to_cache_dir template_dir_files
        signalsSent := 1
        templatesReloaded := true }
    else
      { writtenFiles := [], signalsSent := 0, templatesReloaded := false }

/-- A concrete valid intervention form. -/
def request10 : List (String × String) :=
  [("title", "T"), ("description", "D"), ("start-date", "2023-01-02T03:04"),
   ("estimated-duration", "30"), ("severity", "full-outage"), ("services", "1")]

/-- A concrete admin environment: date parsing yields timestamp 100, the
insert yields id 5, and service lookups find `svc1`. -/
def env10 : AdminEnv :=
  { parse_date := fun _ => .ok 100
    insert_intervention := fun _ => .ok 5
    service_by_id := fun _ => .ok (some svc1)
    rfc2822 := fun t => toString t }

/-- The intervention `create_intervention` persists for `request10`. -/
def intW : Intervention :=
  { id := none, title := "T", description := some "D",
    status := .Identified, start_date := 100, estimated_duration := some 30,
    end_date := none, severity := .FullOutage, is_planned := false }

/-- C9 counterexample: the admin `create_intervention` handler writes the
per-intervention page `5.html` directly into the output directory and
sends no signal into the coordinator's channel, refuting the claim that
all other activity only sends signals and never writes output files. -/
theorem c9_counterexample :
    (create_intervention env10 request10).writtenFiles.map Prod.fst = ["5.html"] ∧
    (create_intervention env10 request10).writtenFiles ≠ [] ∧
    (create_intervention env10 request10).signalsSent = 0 := by
  refine ⟨rfl, by decide, rfl⟩

/-- C9 amended: the coordinator's render pass is the only writer of
`index.html`, but it is not the only writer into the output directory —
`create_intervention` writes the per-intervention page `<id>.html`
directly (sending no signal), and the hot-reload watcher copies the
static `css`/`js` assets directly (while also sending one signal). -/
theorem c9_amended_single_index_writer :
    (∀ (env : AdminEnv) (request : List (String × String)),
      (create_intervention env request).signalsSent = 0 ∧
      ((create_intervention env request).writtenFiles.map Prod.fst = [] ∨
        ∃ id : Int, (create_intervention env request).writtenFiles.map Prod.fst
          = [toString id ++ ".html"])) ∧
    (∀ (files : List String) (kind : EventKind) (paths : List String),
      (watcher_on_event files kind paths).writtenFiles = [] ∨
      ((watcher_on_event files kind paths).writtenFiles
          = copy_static_files_to_cache_dir files ∧
        (watcher_on_event files kind paths).signalsSent = 1)) ∧
    (∀ renv : RenderEnv,
      (regenerate_index renv).2.map Prod.fst = [] ∨
      (regenerate_index renv).2.map Prod.fst = ["index.html"]) := by
  refine ⟨?_, ?_, ?_⟩
  · intro env request
    cases htf : FormIntervention.try_from env.parse_date request with
    | error e => exact ⟨by simp [create_intervention, htf], Or.inl (by simp [create_intervention, htf])⟩
    | ok payload =>
      cases hins : env.insert_intervention (intervention_of payload) with
      | error e =>
        exact ⟨by simp [create_intervention, htf, hins],
          Or.inl (by simp [create_intervention, htf, hins])⟩
      | ok int_id =>
        cases hat : attach_services env payload.services with
        | error st =>
          exact ⟨by simp [create_intervention, htf, hins, hat],
            Or.inl (by simp [create_intervention, htf, hins, hat])⟩
        | ok u =>
          cases u
          exact ⟨by simp [create_intervention, htf, hins, hat],
            Or.inr ⟨int_id, by simp [create_intervention, htf, hins, hat]⟩⟩
  · intro files kind paths
    cases kind with
    | access => exact Or.inl rfl
    | any => exact Or.inl rfl
    | other => exact Or.inl rfl
    | create =>
      by_cases h : (paths.any fun p =>
          (extension p == some "css" || extension p == some "html")) = true
      · exact Or.inr ⟨by simp [watcher_on_event, h], by simp [watcher_on_event, h]⟩
      · exact Or.inl (by simp [watcher_on_event, h])
    | modify =>
      by_cases h : (paths.any fun p =>
          (extension p == some "css" || extension p == some "html")) = true
      · exact Or.inr ⟨by simp [watcher_on_event, h], by simp [watcher_on_event, h]⟩
      · exact Or.inl (by simp [watcher_on_event, h])
    | remove =>
      by_cases h : (paths.any fun p =>
          (extension p == some "css" || extension p == some "html")) = true
      · exact Or.inr ⟨by simp [watcher_on_event, h], by simp [watcher_on_event, h]⟩
      · exact Or.inl (by simp [watcher_on_event, h])
  · intro renv
    cases hb : buildIndexCtx renv with
    | error f => exact Or.inl (by simp [regenerate_index, hb])
    | ok ctx =>
      cases hr : renv.render ctx with
      | error f => exact Or.inl (by simp [regenerate_index, hb, hr])
      | ok content => exact Or.inr (by simp [regenerate_index, hb, hr])

/-- The service-attachment loop only ever fails with 500 or 404. -/
theorem attach_services_error_status (env : AdminEnv) :
    ∀ (sids : List Nat) (st : HttpStatus), attach_services env sids = .error st →
    st = .internalServerError ∨ st = .notFound := by
  intro sids
  induction sids with
  | nil => intro st h; simp [attach_services] at h
  | cons sid rest ih =>
    intro st h
    unfold attach_services at h
    cases hs : env.service_by_id (sid : Int) with
    | error e => rw [hs] at h; simp at h; exact Or.inl h.symm
    | ok o =>
      cases o with
      | none => rw [hs] at h; simp at h; exact Or.inr h.symm
      | some sv => rw [hs] at h; exact ih st h

/-- C10: every intervention persisted by a successful (201)
`create_intervention` request has status `Identified` and
`is_planned = false`, whatever the submitted form contents, and the form
scanner ignores any `status` key; consequently a freshly created
intervention is classified neither ongoing nor planned by the
status-based rule. -/
theorem c10_created_intervention (env : AdminEnv)
    (request : List (String × String))
    (h : (create_intervention env request).status = HttpStatus.created) :
    (∀ i ∈ (create_intervention env request).inserted,
      i.status = Status.Identified ∧ i.is_planned = false ∧
      is_ongoing i = false ∧ is_planned_status i = false) ∧
    (∀ (pd : String → Except String Int) (st : FormScan) (v : String),
      scan_step pd st ("status", v) = .ok st) := by
  refine ⟨?_, fun pd st v => rfl⟩
  intro i hi
  cases htf : FormIntervention.try_from env.parse_date request with
  | error e => simp [create_intervention, htf] at h
  | ok payload =>
    cases hins : env.insert_intervention (intervention_of payload) with
    | error e => simp [create_intervention, htf, hins] at h
    | ok int_id =>
      cases hat : attach_services env payload.services with
      | error st =>
        have hst : st = HttpStatus.created := by
          simpa [create_intervention, htf, hins, hat] using h
        rcases attach_services_error_status env payload.services st hat with rfl | rfl
        · exact absurd hst (by decide)
        · exact absurd hst (by decide)
      | ok u =>
        cases u
        simp [create_intervention, htf, hins, hat] at hi
        subst hi
        exact ⟨rfl, rfl, rfl, rfl⟩

/-- Witness for C10: the theorem evaluated on the concrete valid form
`request10`; the persisted intervention is `intW`, with status
`Identified`, not planned and not ongoing. -/
theorem c10_created_intervention_witness :
    intW.status = Status.Identified ∧ intW.is_planned = false ∧
    is_ongoing intW = false ∧ is_planned_status intW = false :=
  (c10_created_intervention env10 request10 rfl).1 intW (by decide)

end Rustatouille
